import Mathlib

/-!
Verification of the rust-ceda resolution and download pipeline.

The development shallowly embeds the link-resolution and download core of
the repository (src/ceda_client.rs and src/cli/command/update.rs).
HTML retrieval and CSS selection are out-of-scope collaborators per the
specification, so a fetched page is represented by the ordered list of
anchor elements matching the relevant selector, and the network is
represented by an explicit argument (the fetch result, respectively a
fetch-status flag and a stream-copy outcome).  Rust byte indices in
string slicing are modelled at the character level; the two coincide on
the ASCII catalogue URLs the client handles.
-/

namespace RustCeda

/-- Application error type, from src/error.rs (the variants the pipeline
core uses: GenericError, DocumentFetchError, QCV1NotFound). -/
inductive AppError where
  | GenericError
  | DocumentFetchError (msg : String)
  | QCV1NotFound
  deriving DecidableEq, Repr

/-- Display strings of the thiserror attributes in src/error.rs, used by
the map_err closure in get_data_folder_link (e.to_string()). -/
def AppError.message : AppError → String
  | .GenericError => "A generic error occurred"
  | .DocumentFetchError m => "Document Fetch error: " ++ m
  | .QCV1NotFound => "CSV Reading QCV1 Folder Not Found error"

/-- An anchor element of a fetched page, as the scraper crate exposes it
to the client code: an optional href attribute and the list of descendant
text nodes (element.text() iterates text nodes). -/
structure Element where
  href : Option String
  texts : List String
  deriving DecidableEq, Repr

/-- A fetched document, restricted to the elements matching the selector a
stage applies; CSS selection itself is an out-of-scope capability. -/
abbrev Doc := List Element

/-- Outcome of a spawned tokio task: either the task panicked (join_all
reports a JoinError) or it completed with a value. -/
inductive TaskOutcome (α : Type) where
  | panicked
  | completed (a : α)
  deriving DecidableEq, Repr

/-- The reusable link-extraction shape shared by the resolution stages:
document.select(selector) keeps matching elements in document order, and
filter_map over the href attribute drops elements without one. -/
def extractLinks (doc : Doc) (sel : Element → Bool) : List String :=
  (doc.filter sel).filterMap (·.href)

/-- The county filter of get_county_links: regex ^/badc on the href and
regex change_log_station_files$ excluded (src/ceda_client.rs lines 80-87),
modelled as prefix and suffix tests on the character list. -/
def countyLinkKeep (link : String) : Bool :=
  "/badc".toList.isPrefixOf link.toList &&
    !("change_log_station_files".toList.isSuffixOf link.toList)

/-- CedaClient::get_county_links: on a fetch failure the code calls
unwrap on the Err, panicking the task; on success it extracts hrefs of
the #results links and filters them with the county filter. -/
def get_county_links (fetched : Except AppError Doc) :
    TaskOutcome (Except AppError (List String)) :=
  match fetched with
  | .error _ => .panicked
  | .ok doc => .completed (.ok ((doc.filterMap (·.href)).filter countyLinkKeep))

/-- CedaClient::get_station_links: unwrap on the fetch result (panic on
failure), then the raw href list of the station-table links, unfiltered. -/
def get_station_links (fetched : Except AppError Doc) :
    TaskOutcome (Except AppError (List String)) :=
  match fetched with
  | .error _ => .panicked
  | .ok doc => .completed (.ok (doc.filterMap (·.href)))

/-- CedaClient::get_data_file_links: unwrap on the fetch result (panic on
failure), then the raw href list of the #results links, unfiltered. -/
def get_data_file_links (fetched : Except AppError Doc) :
    TaskOutcome (Except AppError (List String)) :=
  match fetched with
  | .error _ => .panicked
  | .ok doc => .completed (.ok (doc.filterMap (·.href)))

/-- The preferred quality-control marker searched for in anchor text. -/
def qcMarker : String := "qc-version-1"

/-- The anchor-text test of extract_qc_version_1_link:
element.text().any(|text| text == "qc-version-1"). -/
def elementTextMatches (e : Element) : Bool :=
  e.texts.any (· == qcMarker)

/-- extract_qc_version_1_link (src/ceda_client.rs lines 182-193): walk the
#results links in document order; at the FIRST element whose text matches,
return its href attribute as an Option (so a matching element without an
href ends the search with None); None when no element matches. -/
def extract_qc_version_1_link : Doc → Option String
  | [] => none
  | e :: rest =>
    if elementTextMatches e then e.href
    else extract_qc_version_1_link rest

/-- CedaClient::get_data_folder_link: a fetch failure is mapped to
DocumentFetchError carrying the display string of the underlying error;
an absent qc-version-1 link is the distinct error QCV1NotFound. -/
def get_data_folder_link (fetched : Except AppError Doc) :
    Except AppError String :=
  match fetched with
  | .error e => .error (.DocumentFetchError e.message)
  | .ok doc =>
    match extract_qc_version_1_link doc with
    | some link => .ok link
    | none => .error .QCV1NotFound

/-- Splitting a character list on the slash character, with the semantics
of Rust str::split: the empty string yields one empty segment, and
adjacent separators yield empty segments. -/
def splitOnSlash : List Char → List (List Char)
  | [] => [[]]
  | c :: rest =>
    match splitOnSlash rest with
    | [] => [[]]
    | seg :: segs => if c = '/' then [] :: seg :: segs else (c :: seg) :: segs

/-- The final path segment of a URL: url.split('/').last().unwrap().
The unwrap cannot fail because split always yields at least one segment;
the default of getLastD is therefore never used. -/
def lastSegChars (url : List Char) : List Char :=
  (splitOnSlash url).getLastD []

/-- Index of the first occurrence of a pattern in a character list, the
semantics of Rust str::find with a string pattern. -/
def findSub (pat : List Char) : List Char → Option Nat
  | [] => if pat.isEmpty then some 0 else none
  | c :: rest =>
    if pat.isPrefixOf (c :: rest) then some 0
    else (findSub pat rest).map (· + 1)

/-- Destination filename derivation of download_csv (src/ceda_client.rs
lines 147-153): the final path segment, truncated after the first
occurrence of ".csv" when there is one (slice ..pos+4), else unchanged. -/
def derive_filename (url : String) : String :=
  match findSub ".csv".toList (lastSegChars url.toList) with
  | some pos => String.mk ((lastSegChars url.toList).take (pos + 4))
  | none => String.mk (lastSegChars url.toList)

/-- State threaded through download_csv: the destination directory as an
association list from filename to file content, and a count of HTTP GET
requests issued by the client. -/
structure DLState where
  files : List (String × String)
  fetchCount : Nat
  deriving DecidableEq, Repr

/-- Outcome of the stream copy to disk: full body written, or the copy
failed after writing some (possibly empty) portion of the body. -/
inductive CopyOutcome where
  | success (body : String)
  | failure (written : String)
  deriving DecidableEq, Repr

/-- Existence check dir.join(filename).exists(). -/
def fileExists (files : List (String × String)) (name : String) : Bool :=
  files.any (·.1 == name)

/-- CedaClient::download_csv (src/ceda_client.rs lines 136-174), in source
order: issue the GET (counted), fail on a non-success status, derive the
filename, return Ok early if the file already exists, otherwise create the
file at its final path and stream-copy the body into it — on a copy
failure the call errors but the created file, holding whatever portion was
written, remains. statusOk abstracts res.status().is_success() and copyRes
abstracts the stream copy. -/
def download_csv (statusOk : Bool) (copyRes : CopyOutcome) (url : String)
    (st : DLState) : Except AppError Unit × DLState :=
  let st1 : DLState := { st with fetchCount := st.fetchCount + 1 }
  if !statusOk then (.error .GenericError, st1)
  else
    let filename := derive_filename url
    if fileExists st1.files filename then (.ok (), st1)
    else
      match copyRes with
      | .success body =>
        (.ok (), { st1 with files := st1.files ++ [(filename, body)] })
      | .failure written =>
        (.error .GenericError, { st1 with files := st1.files ++ [(filename, written)] })

/-- Aggregation loop of get_station_links in src/cli/command/update.rs
(lines 65-76): results of join_all are matched one by one; Ok(Ok(links))
extends the accumulator and ANY other shape — a panicked task or a
per-item error — makes the whole stage return Err(GenericError). -/
def collectStationResults :
    List (TaskOutcome (Except AppError (List String))) → Except AppError (List String)
  | [] => .ok []
  | .completed (.ok links) :: rest =>
    match collectStationResults rest with
    | .ok acc => .ok (links ++ acc)
    | .error e => .error e
  | _ :: _ => .error .GenericError

/-- The double filter_map(Result::ok) of get_data_folder_links: only a
completed task carrying Ok survives; join errors and per-item errors are
dropped. -/
def folderSuccess : TaskOutcome (Except AppError String) → Option String
  | .completed (.ok link) => some link
  | _ => none

/-- Aggregation of get_data_folder_links in src/cli/command/update.rs
(lines 103-115): failures are silently filtered out and the stage always
returns Ok with the surviving links. -/
def collectDataFolderResults (results : List (TaskOutcome (Except AppError String))) :
    Except AppError (List String) :=
  .ok (results.filterMap folderSuccess)

/-- The double filter_map of get_data_file_links, keeping only completed
Ok link lists. -/
def fileSuccess : TaskOutcome (Except AppError (List String)) → Option (List String)
  | .completed (.ok links) => some links
  | _ => none

/-- Aggregation of get_data_file_links in src/cli/command/update.rs
(lines 139-143): failures silently filtered out, survivors flattened, the
stage always returns Ok. -/
def collectDataFileResults
    (results : List (TaskOutcome (Except AppError (List String)))) :
    Except AppError (List String) :=
  .ok (results.filterMap fileSuccess).flatten

/-- The Data-Folder to Data-Files portion of update() (src/cli/command/
update.rs lines 17-18): the folder stage result is propagated with ?, and
its successes are resolved per folder by the data-file stage. -/
def updatePipeline (stationResults : List (TaskOutcome (Except AppError String)))
    (resolveFolder : String → TaskOutcome (Except AppError (List String))) :
    Except AppError (List String) :=
  match collectDataFolderResults stationResults with
  | .error e => .error e
  | .ok folders => collectDataFileResults (folders.map resolveFolder)

/-- The root-page example of the specification, taken literally: three
results-table links with bare hrefs. -/
def rootDocPlain : Doc :=
  [⟨some "/a/", []⟩, ⟨some "/b/", []⟩, ⟨some "/a/change_log_station_files", []⟩]

/-- The root-page example with the catalogue prefix the code actually
filters on. -/
def rootDocBadc : Doc :=
  [⟨some "/badc/a/", []⟩, ⟨some "/badc/b/", []⟩,
   ⟨some "/badc/a/change_log_station_files", []⟩]

/-- The station-page example of the specification: a qc-version-0 folder,
a qc-version-1 folder and a change-log sibling. -/
def stationDocExample : Doc :=
  [⟨some "/badc/x/qc-version-0/", ["qc-version-0"]⟩,
   ⟨some "/badc/x/qc-version-1/", ["qc-version-1"]⟩,
   ⟨some "/badc/x/change_log", ["change_log"]⟩]

/-- The filename-derivation example URL of the specification, with a
query-like suffix appended by the catalogue. -/
def specCsvUrl : String :=
  "https://data.ceda.ac.uk/badc/ukmo-midas-open/data/uk-hourly-weather-obs/dataset-version-202407/antrim/01448_portglenone/qc-version-1/midas-open_uk-hourly-weather-obs_dv-202407_antrim_01448_portglenone_qcv-1_1994.csv?foo=bar"

end RustCeda

deriving instance DecidableEq for Except

namespace RustCeda

theorem extract_qc_version_1_link_eq_none (doc : Doc)
    (h : ∀ e ∈ doc, elementTextMatches e = false) :
    extract_qc_version_1_link doc = none := by
  induction doc with
  | nil => rfl
  | cons e rest ih =>
    simp only [extract_qc_version_1_link, h e (List.mem_cons_self e rest),
      Bool.false_eq_true, if_false]
    exact ih fun x hx => h x (List.mem_cons_of_mem e hx)

theorem extract_qc_version_1_link_first (pre post : Doc) (e : Element)
    (hpre : ∀ x ∈ pre, elementTextMatches x = false)
    (he : elementTextMatches e = true) :
    extract_qc_version_1_link (pre ++ e :: post) = e.href := by
  induction pre with
  | nil => simp [extract_qc_version_1_link, he]
  | cons x xs ih =>
    simp only [List.cons_append, extract_qc_version_1_link,
      hpre x (List.mem_cons_self x xs), Bool.false_eq_true, if_false]
    exact ih fun y hy => hpre y (List.mem_cons_of_mem x hy)

/-- C1: get_data_folder_link returns exactly the href of the candidate
whose anchor text equals the marker qc-version-1 (the first such candidate
when read in document order); when no candidate matches it fails with the
distinct error QCV1NotFound, with no fallback to a qc-version-0 link; and
on the station page of the specification example it returns the
qc-version-1 link and nothing else. -/
theorem qc_folder_selection :
    (∀ doc : Doc, (∀ e ∈ doc, elementTextMatches e = false) →
      get_data_folder_link (.ok doc) = .error .QCV1NotFound) ∧
    (∀ (pre post : Doc) (e : Element) (link : String),
      (∀ x ∈ pre, elementTextMatches x = false) →
      elementTextMatches e = true → e.href = some link →
      get_data_folder_link (.ok (pre ++ e :: post)) = .ok link) ∧
    get_data_folder_link (.ok stationDocExample) = .ok "/badc/x/qc-version-1/" := by
  refine ⟨?_, ?_, rfl⟩
  · intro doc h
    simp [get_data_folder_link, extract_qc_version_1_link_eq_none doc h]
  · intro pre post e link hpre he hh
    simp [get_data_folder_link, extract_qc_version_1_link_first pre post e hpre he, hh]

/-- Witness for C1: a station page with a qc-version-0 folder but no
qc-version-1 folder fails with QCV1NotFound. -/
theorem qc_folder_selection_witness :
    get_data_folder_link (.ok [⟨some "/badc/x/qc-version-0/", ["qc-version-0"]⟩]) =
      .error .QCV1NotFound :=
  qc_folder_selection.1 [⟨some "/badc/x/qc-version-0/", ["qc-version-0"]⟩] (by decide)

/-- C10: the qc-version-1 search stops at the first element whose anchor
text matches; when that element has no href attribute the stage fails with
QCV1NotFound even though a later element carries both the matching text
and an href. -/
theorem qc_first_match_without_href (e x : Element) (rest : Doc) (link : String)
    (h1 : elementTextMatches e = true) (h2 : e.href = none)
    (h3 : x ∈ rest) (h4 : elementTextMatches x = true) (h5 : x.href = some link) :
    get_data_folder_link (.ok (e :: rest)) = .error .QCV1NotFound := by
  simp [get_data_folder_link, extract_qc_version_1_link, h1, h2]

/-- Witness for C10 at a concrete two-element page. -/
theorem qc_first_match_without_href_witness :
    get_data_folder_link (.ok
      [⟨none, ["qc-version-1"]⟩, ⟨some "/badc/q/", ["qc-version-1"]⟩]) =
      .error .QCV1NotFound :=
  qc_first_match_without_href ⟨none, ["qc-version-1"]⟩
    ⟨some "/badc/q/", ["qc-version-1"]⟩ [⟨some "/badc/q/", ["qc-version-1"]⟩]
    "/badc/q/" (by decide) rfl (List.mem_singleton.mpr rfl) (by decide) rfl

/-- C4 counterexample: a fetch failure does not become a per-item error
value in the Counties, Stations and Data-Files stages — the unwrap call
panics the task. -/
theorem fetch_failure_panics :
    get_county_links (.error .GenericError) = .panicked ∧
    get_station_links (.error .GenericError) = .panicked ∧
    get_data_file_links (.error .GenericError) = .panicked :=
  ⟨rfl, rfl, rfl⟩

/-- C4 amended: only the Data-Folder stage surfaces a fetch failure as a
per-item error (DocumentFetchError carrying the display string of the
underlying error); in the Counties, Stations and Data-Files stages a
fetch failure panics the task via unwrap. -/
theorem fetch_failure_per_stage (e : AppError) :
    get_county_links (.error e) = .panicked ∧
    get_station_links (.error e) = .panicked ∧
    get_data_file_links (.error e) = .panicked ∧
    get_data_folder_link (.error e) = .error (.DocumentFetchError e.message) :=
  ⟨rfl, rfl, rfl, rfl⟩

/-- Witness for C4 amended at the concrete generic error. -/
theorem fetch_failure_per_stage_witness :
    get_data_folder_link (.error .GenericError) =
      .error (.DocumentFetchError "A generic error occurred") :=
  (fetch_failure_per_stage .GenericError).2.2.2

/-- C2 counterexample: with one success and one per-item failure the
Stations stage returns a stage-level error instead of the successes, and
with every item failed the Data-Folder stage returns Ok with the empty
list instead of an error. -/
theorem stage_aggregation_cex :
    collectStationResults
      [.completed (.ok ["/badc/s1/"]), .completed (.error .GenericError)] =
      .error .GenericError ∧
    collectDataFolderResults [.completed (.error .QCV1NotFound)] = .ok [] :=
  ⟨rfl, rfl⟩

theorem collectStationResults_error_of_bad
    (rs : List (TaskOutcome (Except AppError (List String))))
    (bad : TaskOutcome (Except AppError (List String)))
    (hmem : bad ∈ rs) (hbad : ∀ links, bad ≠ .completed (.ok links)) :
    collectStationResults rs = .error .GenericError := by
  induction rs with
  | nil => cases hmem
  | cons r rest ih =>
    cases r with
    | panicked => rfl
    | completed a =>
      cases a with
      | error e => rfl
      | ok links =>
        have hrest : bad ∈ rest := by
          rcases List.mem_cons.mp hmem with h | h
          · exact absurd h (hbad links)
          · exact h
        simp [collectStationResults, ih hrest]

/-- C2 amended: the stages do not share one aggregation policy and none
matches the claim. The Stations stage returns a stage-level error as soon
as ANY input item failed, discarding the successes; the Data-Folder and
Data-Files stages never return an error, silently dropping per-item
failures (they are not aggregated or reported) and passing only the
successes downstream. -/
theorem stage_aggregation
    (rs : List (TaskOutcome (Except AppError (List String))))
    (fs : List (TaskOutcome (Except AppError String)))
    (bad : TaskOutcome (Except AppError (List String)))
    (hmem : bad ∈ rs) (hbad : ∀ links, bad ≠ .completed (.ok links)) :
    collectStationResults rs = .error .GenericError ∧
    (∀ e, collectDataFolderResults fs ≠ .error e) ∧
    (∀ e, collectDataFileResults rs ≠ .error e) :=
  ⟨collectStationResults_error_of_bad rs bad hmem hbad,
   fun e h => by simp [collectDataFolderResults] at h,
   fun e h => by simp [collectDataFileResults] at h⟩

/-- Witness for C2 amended: one panicked task fails the whole Stations
stage. -/
theorem stage_aggregation_witness :
    collectStationResults [.panicked] = .error .GenericError :=
  (stage_aggregation [.panicked] [] .panicked (List.mem_singleton.mpr rfl)
    (fun _ h => nomatch h)).1

/-- C6: when Data-Folder resolution fails for station A with QCVersionNotFound
and succeeds for station B, the folder stage still returns Ok and contains
the folder of B, the run does not abort, and the Data-Files stage output
contains every file resolved under the folder of B. -/
theorem partial_failure_tolerance
    (stationResults : List (TaskOutcome (Except AppError String)))
    (b : String) (resolveFolder : String → TaskOutcome (Except AppError (List String)))
    (bFiles : List String)
    (hA : TaskOutcome.completed (Except.error AppError.QCV1NotFound) ∈ stationResults)
    (hB : TaskOutcome.completed (Except.ok b) ∈ stationResults)
    (hres : resolveFolder b = .completed (.ok bFiles)) :
    ∃ folders allFiles,
      collectDataFolderResults stationResults = .ok folders ∧ b ∈ folders ∧
      updatePipeline stationResults resolveFolder = .ok allFiles ∧
      ∀ f ∈ bFiles, f ∈ allFiles := by
  have hbmem : b ∈ stationResults.filterMap folderSuccess :=
    List.mem_filterMap.mpr ⟨.completed (.ok b), hB, rfl⟩
  refine ⟨stationResults.filterMap folderSuccess, _, rfl, hbmem, rfl, ?_⟩
  intro f hf
  apply List.mem_flatten.mpr
  refine ⟨bFiles, ?_, hf⟩
  apply List.mem_filterMap.mpr
  exact ⟨resolveFolder b, List.mem_map_of_mem resolveFolder hbmem, by rw [hres]; rfl⟩

/-- Witness for C6 at a concrete pair of stations. -/
theorem partial_failure_tolerance_witness :
    ∃ folders allFiles,
      collectDataFolderResults
        [.completed (.error .QCV1NotFound), .completed (.ok "/badc/b/data/")] =
        .ok folders ∧
      "/badc/b/data/" ∈ folders ∧
      updatePipeline
        [.completed (.error .QCV1NotFound), .completed (.ok "/badc/b/data/")]
        (fun _ => .completed (.ok ["f1.csv", "f2.csv"])) = .ok allFiles ∧
      ∀ f ∈ ["f1.csv", "f2.csv"], f ∈ allFiles :=
  partial_failure_tolerance
    [.completed (.error .QCV1NotFound), .completed (.ok "/badc/b/data/")]
    "/badc/b/data/" (fun _ => .completed (.ok ["f1.csv", "f2.csv"]))
    ["f1.csv", "f2.csv"] (by decide) (by decide) rfl

theorem fileExists_append_self (files : List (String × String)) (n b : String) :
    fileExists (files ++ [(n, b)]) n = true := by
  simp [fileExists, List.any_append]

/-- C3 counterexample: two successive download_csv calls with the same URL
and destination issue two network fetches, because the GET is sent before
the existence check; the second call nevertheless succeeds. -/
theorem download_twice_fetches_twice :
    (download_csv true (.success "data") "https://x/a.csv"
      (download_csv true (.success "data") "https://x/a.csv" ⟨[], 0⟩).2).2.fetchCount = 2 ∧
    (download_csv true (.success "data") "https://x/a.csv"
      (download_csv true (.success "data") "https://x/a.csv" ⟨[], 0⟩).2).1 = .ok () :=
  ⟨rfl, rfl⟩

/-- C3 amended: when the derived destination filename already exists,
download_csv returns success and writes nothing; a second call with the
same URL and directory is therefore a no-op success that leaves the file
list unchanged; but the network fetch is performed by EVERY call, the
existence check coming only after the fetch, so two calls issue two
fetches rather than at most one. -/
theorem download_skip_existing (url body : String) (c2 : CopyOutcome) (st : DLState)
    (h : fileExists st.files (derive_filename url) = false) :
    (∀ (st2 : DLState) (c : CopyOutcome),
      fileExists st2.files (derive_filename url) = true →
      download_csv true c url st2 = (.ok (), { st2 with fetchCount := st2.fetchCount + 1 })) ∧
    (download_csv true (.success body) url st).1 = .ok () ∧
    (download_csv true c2 url (download_csv true (.success body) url st).2).1 = .ok () ∧
    (download_csv true c2 url (download_csv true (.success body) url st).2).2.files =
      (download_csv true (.success body) url st).2.files ∧
    (download_csv true c2 url (download_csv true (.success body) url st).2).2.fetchCount =
      st.fetchCount + 2 := by
  have hskip : ∀ (st2 : DLState) (c : CopyOutcome),
      fileExists st2.files (derive_filename url) = true →
      download_csv true c url st2 = (.ok (), { st2 with fetchCount := st2.fetchCount + 1 }) := by
    intro st2 c hex
    simp [download_csv, hex]
  have h1 : download_csv true (.success body) url st =
      (.ok (), ⟨st.files ++ [(derive_filename url, body)], st.fetchCount + 1⟩) := by
    simp [download_csv, h]
  have h2 := hskip ⟨st.files ++ [(derive_filename url, body)], st.fetchCount + 1⟩ c2
    (fileExists_append_self st.files (derive_filename url) body)
  refine ⟨hskip, ?_, ?_, ?_, ?_⟩ <;> rw [h1] <;> simp [h2]

/-- Witness for C3 amended at a concrete URL and empty directory. -/
theorem download_skip_existing_witness :
    (download_csv true (.success "data") "https://x/a.csv" ⟨[], 0⟩).1 = .ok () :=
  (download_skip_existing "https://x/a.csv" "data" (.success "data") ⟨[], 0⟩ rfl).2.1

/-- C9: a stream-copy failure in download_csv returns an error while the
file created at its final destination path remains, holding only the
portion written; a subsequent call for the same URL and directory then
sees the file as existing and returns a no-op success, leaving the partial
content in place. -/
theorem download_partial_file_persists (url written : String) (c2 : CopyOutcome)
    (st : DLState) (h : fileExists st.files (derive_filename url) = false) :
    (download_csv true (.failure written) url st).1 = .error .GenericError ∧
    (download_csv true (.failure written) url st).2.files =
      st.files ++ [(derive_filename url, written)] ∧
    (download_csv true c2 url (download_csv true (.failure written) url st).2).1 = .ok () ∧
    (download_csv true c2 url (download_csv true (.failure written) url st).2).2.files =
      (download_csv true (.failure written) url st).2.files := by
  have h1 : download_csv true (.failure written) url st =
      (.error .GenericError, ⟨st.files ++ [(derive_filename url, written)], st.fetchCount + 1⟩) := by
    simp [download_csv, h]
  have h2 : download_csv true c2 url
      ⟨st.files ++ [(derive_filename url, written)], st.fetchCount + 1⟩ =
      (.ok (), ⟨st.files ++ [(derive_filename url, written)], st.fetchCount + 2⟩) := by
    simp [download_csv, fileExists_append_self st.files (derive_filename url) written]
  refine ⟨?_, ?_, ?_, ?_⟩ <;> rw [h1] <;> simp [h2]

/-- Witness for C9 at a concrete URL, failing copy and empty directory. -/
theorem download_partial_file_persists_witness :
    (download_csv true (.failure "par") "https://x/a.csv" ⟨[], 0⟩).1 =
      .error .GenericError :=
  (download_partial_file_persists "https://x/a.csv" "par" (.success "data") ⟨[], 0⟩ rfl).1

theorem findSub_eq_of_first (pat s : List Char) (i : Nat)
    (h1 : pat.isPrefixOf (List.drop i s) = true)
    (h2 : ∀ j < i, pat.isPrefixOf (List.drop j s) = false) :
    findSub pat s = some i := by
  induction s generalizing i with
  | nil =>
    rw [List.drop_nil] at h1
    cases pat with
    | cons p ps => simp [List.isPrefixOf] at h1
    | nil =>
      have hi : i = 0 := by
        by_contra hne
        have h0 := h2 0 (Nat.pos_of_ne_zero hne)
        rw [List.drop_nil] at h0
        simp [List.isPrefixOf] at h0
      subst hi
      rfl
  | cons c rest ih =>
    by_cases hp : pat.isPrefixOf (c :: rest) = true
    · have hi : i = 0 := by
        by_contra hne
        have h0 := h2 0 (Nat.pos_of_ne_zero hne)
        rw [List.drop_zero] at h0
        rw [h0] at hp
        exact Bool.noConfusion hp
      subst hi
      simp [findSub, hp]
    · have hp' : pat.isPrefixOf (c :: rest) = false := by
        cases hcc : pat.isPrefixOf (c :: rest) with
        | true => exact absurd hcc hp
        | false => rfl
      cases i with
      | zero =>
        rw [List.drop_zero] at h1
        exact absurd h1 hp
      | succ k =>
        have h1' : pat.isPrefixOf (List.drop k rest) = true := by
          simpa [List.drop_succ_cons] using h1
        have h2' : ∀ j < k, pat.isPrefixOf (List.drop j rest) = false := by
          intro j hj
          have := h2 (j + 1) (Nat.succ_lt_succ hj)
          simpa [List.drop_succ_cons] using this
        simp [findSub, hp', ih k h1' h2']

/-- C5: for every URL whose final path segment contains ".csv" — stated as
the existence of a first index i at which ".csv" occurs in the segment —
the destination filename derived by download_csv is that final segment
truncated immediately after this first occurrence, so any query-like
suffix the catalogue appends is stripped. -/
theorem derive_filename_first_csv (url : String) (i : Nat)
    (h1 : ".csv".toList.isPrefixOf (List.drop i (lastSegChars url.toList)) = true)
    (h2 : ∀ j < i, ".csv".toList.isPrefixOf (List.drop j (lastSegChars url.toList)) = false) :
    derive_filename url = String.mk (List.take (i + 4) (lastSegChars url.toList)) := by
  simp only [derive_filename, findSub_eq_of_first _ _ i h1 h2]

set_option maxRecDepth 40000 in
/-- Witness for C5 on the specification example URL: the derived filename
is the final segment with the query-like suffix stripped. -/
theorem derive_filename_first_csv_witness :
    derive_filename specCsvUrl =
      "midas-open_uk-hourly-weather-obs_dv-202407_antrim_01448_portglenone_qcv-1_1994.csv" :=
  (derive_filename_first_csv specCsvUrl 78 (by decide) (by decide)).trans (by decide)

/-- C7 counterexample: on the root page of the specification example, with
bare hrefs, the code returns the empty list — the filter demands the
prefix "/badc", so the example links are all excluded, not just the
change-log one. -/
theorem county_example_cex :
    get_county_links (.ok rootDocPlain) = .completed (.ok []) ∧
    get_county_links (.ok rootDocPlain) ≠ .completed (.ok ["/a/", "/b/"]) := by
  constructor
  · rfl
  · intro h
    have := (congrArg (fun t => t = TaskOutcome.completed (Except.ok ([] : List String))) h)
    simp at this
    exact this rfl

/-- C7 amended: the Counties stage returns exactly those hrefs of the
fetched root-page links that start with "/badc" and do not end with
"change_log_station_files", in document order; on the example the links
must carry the catalogue prefix, as in rootDocBadc, for the change-log
entry alone to be excluded — bare links such as "/a/" are filtered out
entirely. -/
theorem county_links_filter :
    (∀ (doc : Doc) (out : List String),
      get_county_links (.ok doc) = .completed (.ok out) →
      out.Sublist (doc.filterMap Element.href) ∧
      ∀ l ∈ out, l ∈ doc.filterMap Element.href ∧ countyLinkKeep l = true) ∧
    get_county_links (.ok rootDocBadc) = .completed (.ok ["/badc/a/", "/badc/b/"]) := by
  constructor
  · intro doc out h
    have hout : out = (doc.filterMap Element.href).filter countyLinkKeep := by
      simp [get_county_links] at h
      exact h.symm
    subst hout
    refine ⟨List.filter_sublist _, ?_⟩
    intro l hl
    have hm := List.mem_filter.mp hl
    exact ⟨hm.1, hm.2⟩
  · rfl

/-- Witness for C7 amended: the output on the prefixed example is, in
document order, a sublist of the hrefs of the page. -/
theorem county_links_filter_witness :
    List.Sublist ["/badc/a/", "/badc/b/"] (rootDocBadc.filterMap Element.href) :=
  (county_links_filter.1 rootDocBadc _ county_links_filter.2).1

/-- C8 counterexample: an anchor whose href attribute is present but empty
contributes the empty string to the extracted sequence, so the claim that
no entry is the empty string fails. -/
theorem extract_links_empty_entry :
    extractLinks [⟨some "", []⟩] (fun _ => true) = [""] ∧
    "" ∈ extractLinks [⟨some "", []⟩] (fun _ => true) :=
  ⟨rfl, by simp [extractLinks]⟩

/-- C8 amended: link extraction is a pure function of the document and
selector whose output contains only href values of matching elements, in
document order (the output is a sublist of the href sequence of the
page), and elements missing an href are silently skipped; but an entry
CAN be the empty string, when a matching element carries an empty href
attribute. -/
theorem extract_links_sound (doc : Doc) (sel : Element → Bool) (pre post : Doc)
    (e : Element) (he : e.href = none) :
    (∀ l ∈ extractLinks doc sel, ∃ x ∈ doc, sel x = true ∧ x.href = some l) ∧
    (extractLinks doc sel).Sublist (doc.filterMap Element.href) ∧
    extractLinks (pre ++ e :: post) sel = extractLinks (pre ++ post) sel := by
  refine ⟨?_, ?_, ?_⟩
  · intro l hl
    rcases List.mem_filterMap.mp hl with ⟨x, hx, hxl⟩
    rcases List.mem_filter.mp hx with ⟨hxd, hsel⟩
    exact ⟨x, hxd, hsel, hxl⟩
  · exact List.Sublist.filterMap _ (List.filter_sublist _)
  · cases hse : sel e with
    | true =>
      simp [extractLinks, List.filter_append, List.filter_cons, hse,
        List.filterMap_append, List.filterMap_cons, he]
    | false =>
      simp [extractLinks, List.filter_append, List.filter_cons, hse]

/-- Witness for C8 amended: an element without an href contributes
nothing to the extraction. -/
theorem extract_links_sound_witness :
    extractLinks ([⟨some "/badc/w/", []⟩] ++ ⟨none, ["w"]⟩ :: []) (fun _ => true) =
      extractLinks ([⟨some "/badc/w/", []⟩] ++ []) (fun _ => true) :=
  (extract_links_sound [] (fun _ => true) [⟨some "/badc/w/", []⟩] [] ⟨none, ["w"]⟩ rfl).2.2

end RustCeda
